import Mathlib

/-!
Verification of the peer-to-peer device synchronization engine of the
DSGVO record-keeping application (src-tauri/src/p2p.rs, database.rs,
crypto.rs, main.rs).

Shallow embedding conventions:
- Rust `String`/`&str` values are `List Char` (`Str`); byte vectors are
  `List Nat` with each entry a byte value.
- `chrono::DateTime<Utc>` instants are `Int` Unix seconds; the value of
  `Utc::now()` at each call site is passed in as an explicit `now`
  argument.  `chrono::Duration::minutes 10` is 600 seconds.
- The `HashMap`s guarding the PIN cache, the peer registry and the
  stored peer certificates are association lists in the (unspecified)
  iteration order of the Rust `HashMap`; `insertA` implements
  `HashMap::insert` (replace the entry with the same key), `removeA`
  implements `HashMap::remove`, `lookupA` implements `HashMap::get`.
- Fallible Rust code (`Result`, `?`) becomes `Except`/`Option`; a
  function that mutates `&mut self` and may fail returns the final
  state paired with the `Except` outcome, mirroring the fact that a
  Rust `Err` return leaves the already-performed mutations in place.
- External effects (TCP connect, TLS handshake, bytes readable from
  the socket) are passed in as explicit oracle data.
-/

abbrev Str := List Char

/-- Decidable equality for `Except`, so that concrete runs of the
embedded operations can be checked by `decide`. -/
instance {ε α : Type} [DecidableEq ε] [DecidableEq α] : DecidableEq (Except ε α) := fun x y =>
  match x, y with
  | Except.ok a, Except.ok b =>
    if h : a = b then isTrue (by rw [h])
    else isFalse (by intro he; cases he; exact h rfl)
  | Except.error e, Except.error f =>
    if h : e = f then isTrue (by rw [h])
    else isFalse (by intro he; cases he; exact h rfl)
  | Except.ok _, Except.error _ => isFalse (by intro he; cases he)
  | Except.error _, Except.ok _ => isFalse (by intro he; cases he)

/-! ### Generic string and list helpers -/

/-- Digits of a natural number, most significant first, with explicit
fuel so that the definition reduces by `decide`; empty for 0. -/
def natDigitsAux : Nat → Nat → List Char
  | 0, _ => []
  | fuel + 1, n =>
    if n = 0 then [] else natDigitsAux fuel (n / 10) ++ [Char.ofNat (48 + n % 10)]

/-- Decimal rendering of a natural number (Rust `format!`). -/
def natToStr (n : Nat) : Str :=
  if n = 0 then ['0'] else natDigitsAux (n + 1) n

/-- Decimal rendering of an integer. -/
def intToStr (i : Int) : Str :=
  if i < 0 then '-' :: natToStr i.natAbs else natToStr i.toNat

/-- Rust `format!("\x7b:06\x7d", r)`: decimal rendering left-padded
with zeros to width 6. -/
def format06 (r : Nat) : Str :=
  let s := natToStr r
  List.replicate (6 - s.length) '0' ++ s

/-- Whether `needle` occurs at the start of `hay`. -/
def strStartsWith : Str → Str → Bool
  | _, [] => true
  | [], _ :: _ => false
  | a :: as, b :: bs => a = b && strStartsWith as bs

/-- Rust `str::contains` (substring occurrence). -/
def strContains : Str → Str → Bool
  | [], needle => needle.isEmpty
  | a :: as, needle => strStartsWith (a :: as) needle || strContains as needle

/-- Split a string on a separator character (Rust `str::split`). -/
def splitOnChar (sep : Char) (s : Str) : List Str :=
  s.foldr
    (fun ch acc =>
      if ch = sep then [] :: acc
      else
        match acc with
        | [] => [[ch]]
        | h :: t => (ch :: h) :: t)
    [[]]

/-- Parse a string consisting only of decimal digits. -/
def parseNatAll (s : Str) : Option Nat :=
  if s ≠ [] ∧ s.all (fun c => c.isDigit) then
    some (s.foldl (fun a c => a * 10 + (c.toNat - 48)) 0)
  else none

/-- Association-list lookup, modelling `HashMap::get`. -/
def lookupA {α : Type} : List (Str × α) → Str → Option α
  | [], _ => none
  | (k, v) :: t, key => if k = key then some v else lookupA t key

/-- Association-list removal, modelling `HashMap::remove`. -/
def removeA {α : Type} (m : List (Str × α)) (k : Str) : List (Str × α) :=
  m.filter (fun kv => kv.1 ≠ k)

/-- Association-list insertion, modelling `HashMap::insert` (the entry
with the same key, if any, is replaced; the position of the new entry
in the iteration order is arbitrary in Rust and placed at the front
here). -/
def insertA {α : Type} (m : List (Str × α)) (k : Str) (v : α) : List (Str × α) :=
  (k, v) :: removeA m k

/-! ### Base64 (standard alphabet with padding, strict decoding),
modelling `base64::engine::general_purpose::STANDARD` /
`base64::prelude::BASE64_STANDARD` -/

/-- Character of the standard base64 alphabet for a 6-bit value. -/
def b64Char (n : Nat) : Char :=
  if n < 26 then Char.ofNat (65 + n)
  else if n < 52 then Char.ofNat (97 + (n - 26))
  else if n < 62 then Char.ofNat (48 + (n - 52))
  else if n = 62 then '+'
  else '/'

/-- Index of a character in the standard base64 alphabet. -/
def b64Index (c : Char) : Option Nat :=
  if 'A' ≤ c ∧ c ≤ 'Z' then some (c.toNat - 65)
  else if 'a' ≤ c ∧ c ≤ 'z' then some (c.toNat - 71)
  else if '0' ≤ c ∧ c ≤ '9' then some (c.toNat + 4)
  else if c = '+' then some 62
  else if c = '/' then some 63
  else none

/-- Standard base64 encoding of a byte sequence, with `=` padding. -/
def base64_encode : List Nat → Str
  | [] => []
  | [a] => [b64Char (a / 4), b64Char (a % 4 * 16), '=', '=']
  | [a, b] => [b64Char (a / 4), b64Char (a % 4 * 16 + b / 16), b64Char (b % 16 * 4), '=']
  | a :: b :: c :: rest =>
    b64Char (a / 4) :: b64Char (a % 4 * 16 + b / 16) ::
      b64Char (b % 16 * 4 + c / 64) :: b64Char (c % 64) :: base64_encode rest

/-- Strict standard base64 decoding: the length must be a multiple of
4, `=` may appear only as canonical final padding, trailing bits must
be zero, and any character outside the alphabet is rejected — as the
strict `STANDARD` engine of the `base64` crate does. -/
def base64_decode : Str → Option (List Nat)
  | [] => some []
  | [c1, c2, '=', '='] => do
    let i1 ← b64Index c1
    let i2 ← b64Index c2
    if i2 % 16 = 0 then some [i1 * 4 + i2 / 16] else none
  | [c1, c2, c3, '='] => do
    let i1 ← b64Index c1
    let i2 ← b64Index c2
    let i3 ← b64Index c3
    if i3 % 4 = 0 then some [i1 * 4 + i2 / 16, i2 % 16 * 16 + i3 / 4] else none
  | c1 :: c2 :: c3 :: c4 :: rest => do
    let i1 ← b64Index c1
    let i2 ← b64Index c2
    let i3 ← b64Index c3
    let i4 ← b64Index c4
    let tail ← base64_decode rest
    some ([i1 * 4 + i2 / 16, i2 % 16 * 16 + i3 / 4, i3 % 4 * 64 + i4] ++ tail)
  | _ => none

/-- UTF-8 bytes of an ASCII string (all characters in the embedded
payloads are ASCII, where UTF-8 coincides with the code point). -/
def asciiBytes (s : Str) : List Nat := s.map Char.toNat

/-- `String::from_utf8` restricted to the ASCII range used by every
payload this system produces. -/
def bytesToAscii : List Nat → Option Str
  | [] => some []
  | b :: t => if b < 128 then (bytesToAscii t).map (fun s => Char.ofNat b :: s) else none

/-! ### Pairing payload JSON
`generate_pairing_code` (p2p.rs 370-382) builds
`serde_json::json!("device_id": ..., "certificate": ..., "timestamp": ...)`
and serializes it with `to_string`.  `serde_json`'s default `Value`
object is a `BTreeMap`, so the keys are emitted in sorted order:
`certificate`, `device_id`, `timestamp`.  The parser below recognises
exactly this serialization (the only payload grammar the system itself
emits); string values are unescaped with the JSON escapes the emitted
strings can contain. -/

/-- JSON escaping of one character (quote, backslash, newline; every
other character the system emits is printable ASCII). -/
def jsonEscapeChar (c : Char) : Str :=
  if c = '"' then ['\\', '"']
  else if c = '\\' then ['\\', '\\']
  else if c = '\n' then ['\\', 'n']
  else [c]

/-- Serialization of the pairing payload as `serde_json::to_string`
produces it (keys in `BTreeMap` order). -/
def serialize_pairing_payload (device_id certificate : Str) (ts : Int) : Str :=
  ("\x7b\"certificate\":\"").data ++ certificate.flatMap jsonEscapeChar ++
    ("\",\"device_id\":\"").data ++ device_id.flatMap jsonEscapeChar ++
    ("\",\"timestamp\":").data ++ intToStr ts ++ ("\x7d").data

/-- Consume an expected literal, returning the rest of the input. -/
def dropLit : Str → Str → Option Str
  | [], s => some s
  | _ :: _, [] => none
  | c :: cs, x :: xs => if c = x then dropLit cs xs else none

/-- Parse a JSON string body up to and including the closing quote,
unescaping `\"`, `\\` and `\n`. -/
def parseJsonString : Str → Option (Str × Str)
  | [] => none
  | '"' :: rest => some ([], rest)
  | '\\' :: e :: rest => do
    let c ← if e = '"' then some '"'
            else if e = '\\' then some '\\'
            else if e = 'n' then some '\n'
            else none
    let (s, r) ← parseJsonString rest
    some (c :: s, r)
  | c :: rest => do
    let (s, r) ← parseJsonString rest
    some (c :: s, r)

/-- Parse an optionally negated decimal integer from the front. -/
def parseIntTok (s : Str) : Option (Int × Str) :=
  match s with
  | '-' :: rest =>
    let ds := rest.takeWhile (fun c => c.isDigit)
    let r := rest.dropWhile (fun c => c.isDigit)
    if ds = [] then none
    else some (-(Int.ofNat (ds.foldl (fun a c => a * 10 + (c.toNat - 48)) 0)), r)
  | _ =>
    let ds := s.takeWhile (fun c => c.isDigit)
    let r := s.dropWhile (fun c => c.isDigit)
    if ds = [] then none
    else some (Int.ofNat (ds.foldl (fun a c => a * 10 + (c.toNat - 48)) 0), r)

/-- Parse the canonical pairing-payload serialization; yields
(certificate, device_id, timestamp). -/
def parse_pairing_payload (s : Str) : Option (Str × Str × Int) := do
  let s1 ← dropLit (("\x7b\"certificate\":\"").data) s
  let (cert, s2) ← parseJsonString s1
  let s3 ← dropLit ((",\"device_id\":\"").data) s2
  let (did, s4) ← parseJsonString s3
  let s5 ← dropLit ((",\"timestamp\":").data) s4
  let (ts, s6) ← parseIntTok s5
  let s7 ← dropLit (("\x7d").data) s6
  if s7 = [] then some (cert, did, ts) else none

/-- The full decode pipeline of `process_pairing_code` (p2p.rs
403-405): base64-decode, `String::from_utf8`, `serde_json` parse and
field extraction.  Any failure is the spec taxonomy's
`MalformedPayload`. -/
def decode_pairing_payload (s : Str) : Option (Str × Str × Int) :=
  (base64_decode s).bind fun bytes => (bytesToAscii bytes).bind parse_pairing_payload

/-! ### Data model (p2p.rs 15-45, main.rs 17-56, database.rs 60-154) -/

/-- p2p.rs `PinData`. -/
structure PinDataM where
  pairing_code : Str
  device_id : Str
  expires_at : Int
deriving DecidableEq

/-- p2p.rs `ActivePin` (`expires_in_seconds` is the remaining lifetime
at the moment of the call). -/
structure ActivePinM where
  pin : Str
  expires_at : Int
  expires_in_seconds : Int
deriving DecidableEq

/-- p2p.rs `PeerInfo`; the address is the (host, port) pair of a
`SocketAddr`. -/
structure PeerInfoM where
  id : Str
  address : Str × Nat
  last_seen : Int
  certificate : Str
deriving DecidableEq

/-- main.rs `Class` row of the `classes` table. -/
structure ClassRow where
  id : Int
  name : Str
  school_year : Str
  created_at : Int
  updated_at : Int
  source_device_id : Str
deriving DecidableEq

/-- main.rs `Student` row of the `students` table. -/
structure StudentRow where
  id : Int
  class_id : Int
  first_name : Str
  last_name : Str
  status : Str
  created_at : Int
  updated_at : Int
  source_device_id : Str
deriving DecidableEq

/-- main.rs `Observation` row of the `observations` table. -/
structure ObservationRow where
  id : Int
  student_id : Int
  author_id : Int
  category : Str
  text : Str
  tags : Str
  created_at : Int
  updated_at : Int
  source_device_id : Str
deriving DecidableEq

/-- database.rs 142-154: one `sync_state` row (sans its `peer_id`
key). -/
structure SyncStateRow where
  last_seq : Int
  last_pull : Option Int
  last_push : Option Int
  changeset_hash : Option Str
deriving DecidableEq

/-- The local relational store, restricted to the tables the sync
engine's claims mention. -/
structure DbStateM where
  classes : List ClassRow
  students : List StudentRow
  observations : List ObservationRow
  sync_state : List (Str × SyncStateRow)
deriving DecidableEq

/-- A freshly created, empty, schema-identical store. -/
def emptyDb : DbStateM := ⟨[], [], [], []⟩

/-- The in-memory state of `P2PManager` (p2p.rs 15-23) together with
the store behind its `db` handle and the peer certificates held by the
`CryptoManager`. -/
structure P2PStateM where
  pin_storage : List (Str × PinDataM)
  peers : List (Str × PeerInfoM)
  peer_certs : List (Str × Str)
  db : DbStateM
deriving DecidableEq

/-! ### PairingCoordinator operations (p2p.rs 62-137, 353-425) -/

/-- Error taxonomy of the pairing flow (spec section 7).  The code
raises `anyhow` errors; the two PIN-cache failure messages
("Invalid PIN or PIN has expired", "PIN has expired") are the spec's
`InvalidOrExpiredPin`, the base64/UTF-8/JSON failures of the payload
decode are `MalformedPayload`, and an unparsable `SocketAddr` in
`add_peer_manually` is `invalidAddress`. -/
inductive PairingError where
  | invalidOrExpiredPin
  | malformedPayload
  | invalidAddress
deriving DecidableEq

/-- p2p.rs 124-137 `cleanup_expired_pins`: remove every entry with
`expires_at <= now`. -/
def cleanup_expired_pins (stor : List (Str × PinDataM)) (now : Int) : List (Str × PinDataM) :=
  stor.filter (fun kv => ¬ kv.2.expires_at ≤ now)

/-- p2p.rs 370-382 `generate_pairing_code`: base64 of the JSON pairing
payload built from the local identity (`device_id`, own certificate
PEM from `get_or_create_certificate_pair`, `Utc::now().timestamp()`). -/
def generate_pairing_code (device_id cert_pem : Str) (now : Int) : Str :=
  base64_encode (asciiBytes (serialize_pairing_payload device_id cert_pem now))

/-- p2p.rs 62-94 `generate_pin`: evict expired entries, draw a random
number `r` in `100000..1000000` rendered as a zero-padded 6-digit PIN,
build the full pairing code, and cache `pin -> PinData` with
`expires_at = now + 10 minutes`. -/
def generate_pin (r : Nat) (now : Int) (device_id cert_pem : Str) (st : P2PStateM) :
    ActivePinM × P2PStateM :=
  let storage := cleanup_expired_pins st.pin_storage now
  let pin := format06 r
  let code := generate_pairing_code device_id cert_pem now
  let expires_at := now + 600
  ({ pin := pin, expires_at := expires_at, expires_in_seconds := expires_at - now },
   { st with pin_storage := insertA storage pin ⟨code, device_id, expires_at⟩ })

/-- p2p.rs 96-114 `get_current_pin`: the first entry of the cache's
iteration order with `expires_at > now`, with its remaining lifetime;
nothing if no entry qualifies. -/
def get_current_pin (stor : List (Str × PinDataM)) (now : Int) : Option ActivePinM :=
  match stor with
  | [] => none
  | (pin, pd) :: t =>
    if now < pd.expires_at then some ⟨pin, pd.expires_at, pd.expires_at - now⟩
    else get_current_pin t now

/-- Simplified model of `str::parse::<SocketAddr>` for dotted-quad
IPv4 addresses with a port, the only address shape this system feeds
it; yields (host, port). -/
def parseSocketAddr (s : Str) : Option (Str × Nat) :=
  match splitOnChar ':' s with
  | [host, portS] =>
    match parseNatAll portS with
    | none => none
    | some port =>
      let octs := splitOnChar '.' host
      if octs.length = 4 ∧
          octs.all (fun o => match parseNatAll o with | some v => v ≤ 255 | none => false) ∧
          port ≤ 65535 then
        some (host, port)
      else none
  | _ => none

/-- p2p.rs 353-368 `add_peer_manually`: parse the address, store the
peer certificate in the credential store, insert the peer into the
registry.  An unparsable address fails before any mutation. -/
def add_peer_manually (peer_id address certificate : Str) (now : Int) (st : P2PStateM) :
    P2PStateM × Except PairingError Unit :=
  match parseSocketAddr address with
  | none => (st, Except.error PairingError.invalidAddress)
  | some addr =>
    ({ st with
        peer_certs := insertA st.peer_certs peer_id certificate,
        peers := insertA st.peers peer_id ⟨peer_id, addr, now, certificate⟩ },
     Except.ok ())

/-- p2p.rs 385, 418: the input is treated as a PIN when it is exactly
6 ASCII digits (`len() == 6 && chars().all(is_ascii_digit)`). -/
def is_six_digit_pin (s : Str) : Bool :=
  s.length = 6 && s.all (fun c => c.isDigit)

/-- p2p.rs 398-424, shared tail of `process_pairing_code`: decode the
resolved pairing payload, record the trusted peer, and — when the
original input was a 6-digit PIN — remove that PIN from the cache
(single use).  `input` is the original user input, `actual` the
resolved base64 payload. -/
def continue_pairing (input actual peer_address : Str) (now : Int) (st : P2PStateM) :
    P2PStateM × Except PairingError Str :=
  match decode_pairing_payload actual with
  | none => (st, Except.error PairingError.malformedPayload)
  | some (cert, did, _ts) =>
    match add_peer_manually did peer_address cert now st with
    | (st1, Except.error e) => (st1, Except.error e)
    | (st1, Except.ok _) =>
      if is_six_digit_pin input then
        ({ st1 with pin_storage := removeA st1.pin_storage input }, Except.ok did)
      else (st1, Except.ok did)

/-- p2p.rs 384-425 `process_pairing_code` (the spec's
`process_pairing_input`): a 6-digit numeric input is looked up in the
PIN cache (absent or expired → `InvalidOrExpiredPin`) and resolved to
its wrapped payload; any other input is treated directly as a base64
payload. -/
def process_pairing_code (input peer_address : Str) (now : Int) (st : P2PStateM) :
    P2PStateM × Except PairingError Str :=
  if is_six_digit_pin input then
    match lookupA st.pin_storage input with
    | none => (st, Except.error PairingError.invalidOrExpiredPin)
    | some pd =>
      if pd.expires_at ≤ now then (st, Except.error PairingError.invalidOrExpiredPin)
      else continue_pairing input pd.pairing_code peer_address now st
  else continue_pairing input input peer_address now st

/-! ### ChangeLogStore collaborator (database.rs 517-534)
The source's `get_pending_changesets` and `apply_changeset` are
literal placeholders: the export is the constant JSON document with an
empty `changes` array, and the import ignores its argument and
returns `Ok(())` without touching the store. -/

/-- Spec section 7 `MergeError` taxonomy. -/
inductive MergeError where
  | constraintViolation
  | unreadableChangeset
deriving DecidableEq

/-- database.rs 518-528 `get_pending_changesets`: the serialized JSON
`\x7b"changes":[],"format":"changeset_v1","timestamp":<now>\x7d`
(keys in `serde_json` `BTreeMap` order; the `chrono` timestamp
serializes as an RFC3339 string, passed in here already rendered). -/
def get_pending_changesets (ts : Str) : List Nat :=
  asciiBytes
    (("\x7b\"changes\":[],\"format\":\"changeset_v1\",\"timestamp\":\"").data ++ ts ++
      ("\"\x7d").data)

/-- database.rs 530-534 `apply_changeset`: a placeholder that ignores
the changeset and the peer and returns `Ok(())`, leaving the store
untouched. -/
def apply_changeset (_changeset : List Nat) (_operation : Str) (db : DbStateM) :
    Except MergeError DbStateM :=
  Except.ok db

/-! ### Wire framing (p2p.rs 264-284, 316-334)
One message is an 8-byte little-endian u64 byte count followed by
exactly that many payload bytes, read with `read_exact` (which
completes only once every announced byte has arrived). -/

/-- The 8 little-endian bytes of `n` as a `u64`
(`u64::to_le_bytes`). -/
def u64le (n : Nat) : List Nat :=
  [n % 256, n / 256 % 256, n / 65536 % 256, n / 16777216 % 256,
   n / 4294967296 % 256, n / 1099511627776 % 256,
   n / 281474976710656 % 256, n / 72057594037927936 % 256]

/-- Little-endian value of a byte list (`u64::from_le_bytes` on the
8-byte length field). -/
def leVal : List Nat → Nat
  | [] => 0
  | b :: t => b % 256 + 256 * leVal t

/-- Read one length-prefixed message from the available input bytes:
`read_exact` an 8-byte length, then `read_exact` that many payload
bytes.  `none` models a read that cannot complete on the given bytes
(the code blocks until they arrive or the stream ends in error). -/
def readFrame (input : List Nat) : Option (List Nat × List Nat) :=
  if 8 ≤ input.length then
    let len := leVal (input.take 8)
    let body := input.drop 8
    if len ≤ body.length then some (body.take len, body.drop len) else none
  else none

/-- Encode one message: `write_all(&len.to_le_bytes())` then
`write_all(&payload)`. -/
def encodeFrame (payload : List Nat) : List Nat :=
  u64le payload.length ++ payload

/-- p2p.rs 264-284, the responder side of the exchange inside
`handle_connection`: read one inbound message in full, apply it to the
local store, then send the locally pending changeset as one outbound
message.  Yields (outbound bytes, new store). -/
def responder_exchange (input : List Nat) (peer_id : Str) (db : DbStateM) (ts : Str) :
    Option (List Nat × DbStateM) :=
  match readFrame input with
  | none => none
  | some (payload, _) =>
    match apply_changeset payload peer_id db with
    | Except.error _ => none
    | Except.ok db' => some (encodeFrame (get_pending_changesets ts), db')

/-- p2p.rs 316-334, the initiator side of the exchange inside
`sync_with_peer`: send the locally pending changeset as one message,
then read one inbound message in full and apply it.  Yields (sent
bytes, new store). -/
def initiator_exchange (db : DbStateM) (peer_id : Str) (ts : Str) (inbound : List Nat) :
    Option (List Nat × DbStateM) :=
  match readFrame inbound with
  | none => none
  | some (payload, _) =>
    match apply_changeset payload peer_id db with
    | Except.error _ => none
    | Except.ok db' => some (encodeFrame (get_pending_changesets ts), db')

/-- One full exchange session between an initiator (client) store and
a responder (server) store: the initiator's single outbound frame is
the responder's input, the responder's single outbound frame is the
initiator's input.  Yields (initiator store, responder store,
initiator frame, responder frame). -/
def session (dbI dbR : DbStateM) (pidI pidR : Str) (tsI tsR : Str) :
    Option (DbStateM × DbStateM × List Nat × List Nat) :=
  match responder_exchange (encodeFrame (get_pending_changesets tsI)) pidI dbR tsR with
  | none => none
  | some (msgR, dbR') =>
    match initiator_exchange dbI pidR tsI msgR with
    | none => none
    | some (sentI, dbI') => some (dbI', dbR', sentI, msgR)

/-! ### SecureChannel server role (p2p.rs 196-285) -/

/-- A peer certificate with the identity its Common Name / SAN
carries and its DER bytes. -/
structure CertM where
  identity : Str
  der : List Nat
deriving DecidableEq

/-- The rustls `ServerConfig` aspect the claims depend on: whether the
handshake demands a client certificate. -/
structure ServerTlsConfigM where
  client_auth_required : Bool
deriving DecidableEq

/-- p2p.rs 209-212: `ServerConfig::builder().with_no_client_auth()
.with_single_cert(certs, private_key)` — client authentication is not
required. -/
def server_tls_config : ServerTlsConfigM := { client_auth_required := false }

/-- The server-side result of a completed TLS handshake:
`peer_certificates()` on the connection. -/
structure TlsServerSession where
  peer_cert : Option CertM
deriving DecidableEq

/-- rustls handshake semantics on the accept side: with client
authentication configured, a connection without a trusted client
certificate fails the handshake; with `with_no_client_auth`, the
server neither requests nor receives a client certificate, the
handshake succeeds for every client, and `peer_certificates()` is
`None`. -/
def tls_accept (cfg : ServerTlsConfigM) (trusted : CertM → Bool) (offered : Option CertM) :
    Option TlsServerSession :=
  if cfg.client_auth_required then
    match offered with
    | none => none
    | some c => if trusted c then some ⟨some c⟩ else none
  else some ⟨none⟩

/-- Modelled from the spec: `CryptoManager::get_device_id_from_cert`
is called at p2p.rs 259 but not defined under src/; spec section 3
says the peer id is derived from the certificate identity (Common
Name or DNS-name SAN entry). -/
def get_device_id_from_cert (c : CertM) : Str := c.identity

/-- Failure modes of `handle_connection`. -/
inductive ConnError where
  | handshakeFailed
  | noPeerCertificate
  | framingOrMerge
deriving DecidableEq

/-- p2p.rs 240-285 `handle_connection`: accept the TLS handshake,
fetch the peer certificate from the completed session
(`peer_certificates()`, failing with an error when absent), persist it
into the credential store keyed by the extracted identity, then run
the responder side of the changeset exchange.  Yields (new store, new
credential store, outbound bytes). -/
def handle_connection (offered : Option CertM) (trusted : CertM → Bool) (input : List Nat)
    (db : DbStateM) (certs : List (Str × Str)) (ts : Str) :
    Except ConnError (DbStateM × List (Str × Str) × List Nat) :=
  match tls_accept server_tls_config trusted offered with
  | none => Except.error ConnError.handshakeFailed
  | some sess =>
    match sess.peer_cert with
    | none => Except.error ConnError.noPeerCertificate
    | some cert =>
      let peer_id := get_device_id_from_cert cert
      let certs' := insertA certs peer_id (base64_encode cert.der)
      match responder_exchange input peer_id db ts with
      | none => Except.error ConnError.framingOrMerge
      | some (out, db') => Except.ok (db', certs', out)

/-! ### SyncOrchestrator client side (p2p.rs 287-343) -/

/-- External effects of one outbound sync attempt: whether TCP connect
plus TLS handshake (against the pinned certificate) succeed, and the
bytes the peer sends back. -/
structure NetOracle where
  connect_ok : Bool
  inbound : List Nat
deriving DecidableEq

/-- Failure modes of `sync_with_peer`. -/
inductive SyncError where
  | badPinnedCertificate
  | connectFailed
  | framingFailed
  | mergeFailed
deriving DecidableEq

/-- p2p.rs 287-343 `sync_with_peer`: look the peer up in the registry;
when absent, only log a warning and return `Ok(())`.  When present:
base64-decode the pinned certificate into the client root store,
connect and handshake, send the pending changeset as one frame, read
one frame in full, apply it.  No branch of this function writes the
`sync_state` table. -/
def sync_with_peer (peer_id : Str) (st : P2PStateM) (net : NetOracle) (_ts : Str) :
    P2PStateM × Except SyncError Unit :=
  match lookupA st.peers peer_id with
  | none => (st, Except.ok ())
  | some peer =>
    match base64_decode peer.certificate with
    | none => (st, Except.error SyncError.badPinnedCertificate)
    | some _der =>
      if net.connect_ok then
        match readFrame net.inbound with
        | none => (st, Except.error SyncError.framingFailed)
        | some (payload, _) =>
          match apply_changeset payload peer.id st.db with
          | Except.error _ => (st, Except.error SyncError.mergeFailed)
          | Except.ok db' => ({ st with db := db' }, Except.ok ())
      else (st, Except.error SyncError.connectFailed)

/-! ### DiscoveryService (p2p.rs 139-194) -/

/-- The resolved mDNS service data the discovery task consumes. -/
structure ServiceInfoM where
  fullname : Str
  addresses : List Str
  port : Nat
deriving DecidableEq

/-- p2p.rs 144: the advertised service type. -/
def service_type : Str := ("_schuelerbeobachtung._tcp.local.").data

/-- p2p.rs 145: the advertised instance name,
`format!("device-\x7b\x7d", &device_id[..8])`. -/
def advertised_instance_name (device_id : Str) : Str :=
  ("device-").data ++ device_id.take 8

/-- The mDNS fullname of this node's own advertisement:
`<instance>.<service type>`. -/
def advertised_fullname (device_id : Str) : Str :=
  advertised_instance_name device_id ++ (".").data ++ service_type

/-- p2p.rs 161-190, the `ServiceResolved` arm of the discovery task:
skip the event when the fullname contains this node's full device id;
otherwise parse the peer id as the fullname up to the first dot and,
when it is nonempty and an address is present, insert/update the peer
registry (with an empty certificate until pairing). -/
def handle_service_resolved (own_device_id : Str) (info : ServiceInfoM) (now : Int)
    (peers : List (Str × PeerInfoM)) : List (Str × PeerInfoM) :=
  if strContains info.fullname own_device_id then peers
  else
    let peer_id := info.fullname.takeWhile (fun c => c ≠ '.')
    if peer_id = [] then peers
    else
      match info.addresses with
      | [] => peers
      | a :: _ => insertA peers peer_id ⟨peer_id, (a, info.port), now, []⟩

/-! ### Concrete instances used by counterexamples and witnesses -/

/-- A fresh `P2PManager` state: empty caches, empty store. -/
def p2pEmpty : P2PStateM := ⟨[], [], [], emptyDb⟩

/-- A sample rendered RFC3339 timestamp. -/
def ts_sample : Str := ("2024-01-01T00:00:00Z").data

/-- C3: a source store holding one observation (id 55). -/
def c3_source_db : DbStateM :=
  ⟨[], [],
   [⟨55, 1, 1, ("general").data, ("draft").data, ("[]").data, 0, 0, ("d1").data⟩], []⟩

/-- C4/C10: a registry holding one discovered peer `p1` (empty
certificate, as discovery leaves it). -/
def c4_state : P2PStateM :=
  ⟨[], [(("p1").data, ⟨("p1").data, (("127.0.0.1").data, 8080), 0, []⟩)], [], emptyDb⟩

/-- C4: a cooperative network: connect succeeds and the peer answers
with one empty-payload frame. -/
def c4_net : NetOracle := ⟨true, encodeFrame []⟩

/-- C5: local identity and certificate of the pairing node. -/
def c5_did : Str := ("d1").data

/-- C5: own certificate PEM (ASCII sample). -/
def c5_cert : Str := ("CERT").data

/-- C5: state after `generate_pin` drew 482913 at time 0. -/
def c5_before : P2PStateM := (generate_pin 482913 0 c5_did c5_cert p2pEmpty).2

/-- C5: the address the pairing peer was observed at. -/
def c5_addr : Str := ("127.0.0.1:8080").data

/-- C5: expected state after the successful pairing at time 60: PIN
cache emptied, peer and certificate recorded. -/
def c5_after : P2PStateM :=
  ⟨[], [(c5_did, ⟨c5_did, (("127.0.0.1").data, 8080), 60, c5_cert⟩)],
   [(c5_did, c5_cert)], emptyDb⟩

/-- C7: a 36-character UUID device id. -/
def c7_device_id : Str := ("aaaaaaaa-bbbb-cccc-dddd-eeeeeeeeeeee").data

/-- C7: this node's own resolved advertisement. -/
def c7_self_info : ServiceInfoM :=
  ⟨advertised_fullname c7_device_id, [("127.0.0.1").data], 8080⟩

/-- C8: cache state after two `generate_pin` calls, drawing 111111 at
time -500 (expiry 100) and 222222 at time -400 (expiry 200); the
later-expiring PIN sits first in the iteration order. -/
def c8_state : P2PStateM :=
  (generate_pin 222222 (-400) c5_did c5_cert
    ((generate_pin 111111 (-500) c5_did c5_cert p2pEmpty)).2).2

/-! ### Helper lemmas -/

theorem lookupA_removeA {α : Type} (m : List (Str × α)) (k : Str) :
    lookupA (removeA m k) k = none := by
  induction m with
  | nil => rfl
  | cons kv t ih =>
    rcases kv with ⟨k1, v1⟩
    by_cases h : k1 = k
    · simpa [removeA, List.filter_cons, h] using ih
    · simpa [removeA, List.filter_cons, h, lookupA] using ih

theorem lookupA_insertA {α : Type} (m : List (Str × α)) (k : Str) (v : α) :
    lookupA (insertA m k v) k = some v := by
  simp [insertA, lookupA]

theorem take_length_append {α : Type} (a b : List α) : (a ++ b).take a.length = a := by
  induction a with
  | nil => rfl
  | cons x t ih => simp [List.take, ih]

theorem drop_length_append {α : Type} (a b : List α) : (a ++ b).drop a.length = b := by
  induction a with
  | nil => rfl
  | cons x t ih => simp [List.drop, ih]

theorem u64le_length (n : Nat) : (u64le n).length = 8 := rfl

theorem leVal_u64le (n : Nat) (h : n < 18446744073709551616) : leVal (u64le n) = n := by
  simp only [u64le, leVal]
  omega

/-- Reading one frame from a wire that starts with a well-formed
encoded frame yields exactly the announced payload and leaves the rest
of the wire untouched. -/
theorem readFrame_encodeFrame (p rest : List Nat) (h : p.length < 18446744073709551616) :
    readFrame (encodeFrame p ++ rest) = some (p, rest) := by
  have hlen8 : (u64le p.length).length = 8 := u64le_length p.length
  have harr : encodeFrame p ++ rest = u64le p.length ++ (p ++ rest) := by
    simp [encodeFrame]
  rw [harr]
  have htot : 8 ≤ (u64le p.length ++ (p ++ rest)).length := by
    simp [List.length_append, hlen8]
  have htake : (u64le p.length ++ (p ++ rest)).take 8 = u64le p.length := by
    conv_lhs => rw [← hlen8]
    exact take_length_append _ _
  have hdrop : (u64le p.length ++ (p ++ rest)).drop 8 = p ++ rest := by
    conv_lhs => rw [← hlen8]
    exact drop_length_append _ _
  rw [readFrame, if_pos htot]
  simp only [htake, hdrop, leVal_u64le p.length h]
  rw [if_pos (by simp [List.length_append])]
  rw [take_length_append, drop_length_append]

/-! ### Claim theorems -/

/-- C1: the sync server's TLS configuration is
`with_no_client_auth` (p2p.rs 209-212), so the handshake succeeds for
a client presenting no certificate — contradicting the claim that the
handshake requires and verifies a client certificate.  Moreover
`peer_certificates()` is then always `None`, so every accepted
connection fails the post-handshake certificate lookup and no
connection is ever served a changeset exchange. -/
theorem server_accepts_clients_without_certificate :
    (∀ trusted : CertM → Bool, tls_accept server_tls_config trusted none = some ⟨none⟩) ∧
    (∀ (offered : Option CertM) (trusted : CertM → Bool) (input : List Nat) (db : DbStateM)
        (certs : List (Str × Str)) (ts : Str),
        handle_connection offered trusted input db certs ts =
          Except.error ConnError.noPeerCertificate) :=
  ⟨fun _ => rfl, fun _ _ _ _ _ _ => rfl⟩

/-- C2: `Database::apply_changeset` (database.rs 530-534) is a
placeholder that ignores the incoming changeset and returns `Ok`
with the store untouched, for every changeset — so a changeset whose
application would violate referential integrity never raises a
`MergeError`, contradicting the claim. -/
theorem apply_changeset_never_raises_merge_error :
    ∀ (changeset : List Nat) (peer : Str) (db : DbStateM),
      apply_changeset changeset peer db = Except.ok db :=
  fun _ _ _ => rfl

/-- C3: the export (database.rs 518-528) is the constant
empty-`changes` document and the apply is a no-op, so applying the
exported changeset of a non-empty source store to an empty replica
leaves the replica empty and different from the source — the
export-then-apply round trip fails. -/
theorem export_apply_round_trip_fails :
    apply_changeset (get_pending_changesets ts_sample) (("p1").data) emptyDb =
        Except.ok emptyDb ∧
      emptyDb ≠ c3_source_db :=
  ⟨rfl, by decide⟩

/-- C6: the wire protocol of one exchange session: each message is an
8-byte little-endian u64 byte count followed by exactly that many
payload bytes; a read completes only when every announced byte is
available; and a full session consists of exactly the initiator's one
frame (sent before it reads) and the responder's one frame (sent after
it has read and applied the inbound frame). -/
theorem wire_protocol_two_frames :
    (∀ p : List Nat, encodeFrame p = u64le p.length ++ p) ∧
    (∀ p rest : List Nat, p.length < 18446744073709551616 →
      readFrame (encodeFrame p ++ rest) = some (p, rest)) ∧
    (∀ input : List Nat, input.length < 8 → readFrame input = none) ∧
    (∀ input : List Nat, 8 ≤ input.length → input.length < 8 + leVal (input.take 8) →
      readFrame input = none) ∧
    (∀ (dbI dbR : DbStateM) (pidI pidR tsI tsR : Str),
      (get_pending_changesets tsI).length < 18446744073709551616 →
      (get_pending_changesets tsR).length < 18446744073709551616 →
      session dbI dbR pidI pidR tsI tsR =
        some (dbI, dbR, encodeFrame (get_pending_changesets tsI),
          encodeFrame (get_pending_changesets tsR))) := by
  refine ⟨fun _ => rfl, readFrame_encodeFrame, ?_, ?_, ?_⟩
  · intro input h
    unfold readFrame
    rw [if_neg (by omega)]
  · intro input h8 hlt
    unfold readFrame
    rw [if_pos h8, if_neg (by simp only [List.length_drop]; omega)]
  · intro dbI dbR pidI pidR tsI tsR h1 h2
    have hR : readFrame (encodeFrame (get_pending_changesets tsI)) =
        some (get_pending_changesets tsI, []) := by
      have h := readFrame_encodeFrame (get_pending_changesets tsI) [] h1
      simpa using h
    have hI : readFrame (encodeFrame (get_pending_changesets tsR)) =
        some (get_pending_changesets tsR, []) := by
      have h := readFrame_encodeFrame (get_pending_changesets tsR) [] h2
      simpa using h
    have hresp : responder_exchange (encodeFrame (get_pending_changesets tsI)) pidI dbR tsR =
        some (encodeFrame (get_pending_changesets tsR), dbR) := by
      unfold responder_exchange
      rw [hR]
      rfl
    have hinit : initiator_exchange dbI pidR tsI (encodeFrame (get_pending_changesets tsR)) =
        some (encodeFrame (get_pending_changesets tsI), dbI) := by
      unfold initiator_exchange
      rw [hI]
      rfl
    unfold session
    rw [hresp]
    simp only [hinit]

/-- C6 witness: concrete frames and a concrete session. -/
theorem wire_protocol_witness :
    readFrame (encodeFrame [7] ++ [9]) = some ([7], [9]) ∧
    readFrame [0, 0, 0] = none ∧
    readFrame (u64le 5) = none ∧
    session emptyDb emptyDb (("a").data) (("b").data) (("T1").data) (("T2").data) =
      some (emptyDb, emptyDb, encodeFrame (get_pending_changesets (("T1").data)),
        encodeFrame (get_pending_changesets (("T2").data))) :=
  ⟨wire_protocol_two_frames.2.1 [7] [9] (by decide),
   wire_protocol_two_frames.2.2.1 [0, 0, 0] (by decide),
   wire_protocol_two_frames.2.2.2.1 (u64le 5) (by decide) (by decide),
   wire_protocol_two_frames.2.2.2.2 emptyDb emptyDb (("a").data) (("b").data)
     (("T1").data) (("T2").data) (by decide) (by decide)⟩

/-- C7: the discovery task's skip-self check (p2p.rs 165) tests
whether the resolved fullname contains the node's full device id, but
the node advertises only the first 8 characters of that id
(p2p.rs 145), so its own advertisement is not recognised as self and
is inserted into the peer registry — contradicting the claim that
self-advertisements are filtered out. -/
theorem self_advertisement_inserted_into_registry :
    strContains (advertised_fullname c7_device_id) c7_device_id = false ∧
    handle_service_resolved c7_device_id c7_self_info 0 [] =
      [(advertised_instance_name c7_device_id,
        ⟨advertised_instance_name c7_device_id, (("127.0.0.1").data, 8080), 0, []⟩)] := by
  constructor
  · decide
  · decide

/-- C10: `sync_with_peer` with a peer id absent from the registry only
logs a warning and returns `Ok(())`, leaving the whole state (peer
registry and local store) unchanged. -/
theorem sync_with_unknown_peer_returns_ok :
    ∀ (peer_id : Str) (st : P2PStateM) (net : NetOracle) (ts : Str),
      lookupA st.peers peer_id = none →
      sync_with_peer peer_id st net ts = (st, Except.ok ()) := by
  intro peer_id st net ts h
  unfold sync_with_peer
  rw [h]

/-- C10 witness: a concrete registry that does not know peer
"ghost". -/
theorem sync_with_unknown_peer_witness :
    sync_with_peer (("ghost").data) c4_state c4_net ts_sample = (c4_state, Except.ok ()) :=
  sync_with_unknown_peer_returns_ok (("ghost").data) c4_state c4_net ts_sample (by decide)

/-- C4: no branch of `sync_with_peer` (nor the placeholder
`get_pending_changesets`/`apply_changeset` it calls, despite the
comment at p2p.rs 336 claiming otherwise) writes the `sync_state`
table: even after a fully successful exchange the peer's `sync_state`
row — `last_seq` included — and indeed the whole manager state are
unchanged, contradicting the claimed `last_seq + 1` and timestamp
updates. -/
theorem successful_sync_leaves_sync_state_untouched :
    ∀ (peer_id : Str) (st : P2PStateM) (net : NetOracle) (ts : Str) (st' : P2PStateM),
      sync_with_peer peer_id st net ts = (st', Except.ok ()) →
      st'.db.sync_state = st.db.sync_state ∧ st' = st := by
  intro peer_id st net ts st' h
  unfold sync_with_peer at h
  simp only [apply_changeset] at h
  have hst : st' = st := by
    split at h
    · exact (Prod.mk.injEq _ _ _ _ ▸ h).1.symm
    · split at h
      · cases h
      · split at h
        · split at h
          · cases h
          · exact (Prod.mk.injEq _ _ _ _ ▸ h).1.symm
        · cases h
  exact ⟨by rw [hst], hst⟩

/-- C4 witness: a concrete fully successful exchange with registered
peer "p1" over a cooperative network. -/
theorem successful_sync_witness :
    sync_with_peer (("p1").data) c4_state c4_net ts_sample = (c4_state, Except.ok ()) ∧
    c4_state.db.sync_state = c4_state.db.sync_state :=
  ⟨by decide,
   (successful_sync_leaves_sync_state_untouched (("p1").data) c4_state c4_net ts_sample
     c4_state (by decide)).1⟩

/-- C5: a generated PIN expires exactly 600 seconds (10 minutes) after
generation and is cached with the wrapped pairing code; a PIN accepted
once by a successful `process_pairing_code` pairing is removed from
the cache in the same pairing, so any second attempt with that PIN is
rejected with `InvalidOrExpiredPin`; and any 6-digit lookup at or
after the cached entry's `expires_at` is rejected with
`InvalidOrExpiredPin`. -/
theorem pin_single_use_and_expiry :
    (∀ (r : Nat) (now : Int) (did cert : Str) (st : P2PStateM),
      (generate_pin r now did cert st).1.expires_at = now + 600 ∧
      (generate_pin r now did cert st).1.pin = format06 r ∧
      lookupA (generate_pin r now did cert st).2.pin_storage (format06 r) =
        some ⟨generate_pairing_code did cert now, did, now + 600⟩) ∧
    (∀ (pin addr : Str) (now : Int) (st st' : P2PStateM) (pid : Str),
      is_six_digit_pin pin = true →
      process_pairing_code pin addr now st = (st', Except.ok pid) →
      lookupA st'.pin_storage pin = none ∧
      ∀ now2 : Int, process_pairing_code pin addr now2 st' =
        (st', Except.error PairingError.invalidOrExpiredPin)) ∧
    (∀ (pin addr : Str) (now : Int) (st : P2PStateM) (pd : PinDataM),
      is_six_digit_pin pin = true →
      lookupA st.pin_storage pin = some pd →
      pd.expires_at ≤ now →
      process_pairing_code pin addr now st =
        (st, Except.error PairingError.invalidOrExpiredPin)) := by
  refine ⟨?_, ?_, ?_⟩
  · intro r now did cert st
    exact ⟨rfl, rfl, lookupA_insertA _ _ _⟩
  · intro pin addr now st st' pid h6 h
    unfold process_pairing_code at h
    rw [h6, if_pos rfl] at h
    split at h
    · cases h
    · split at h
      · cases h
      · unfold continue_pairing at h
        split at h
        · cases h
        · split at h
          · cases h
          · rename_i st1 u heq
            rw [h6, if_pos rfl] at h
            have hst : st' = { st1 with pin_storage := removeA st1.pin_storage pin } :=
              (Prod.mk.injEq _ _ _ _ ▸ h).1.symm
            have hnone : lookupA st'.pin_storage pin = none := by
              rw [hst]
              exact lookupA_removeA _ _
            refine ⟨hnone, ?_⟩
            intro now2
            unfold process_pairing_code
            rw [h6, if_pos rfl]
            simp only [hnone]
  · intro pin addr now st pd h6 hlk hex
    unfold process_pairing_code
    rw [h6, if_pos rfl]
    simp only [hlk]
    rw [if_pos hex]

/-- C5 witness: PIN 482913 generated at time 0 expires at 600; after
its successful use at time 60 the cache no longer holds it and a
second attempt is rejected; a lookup of the still-cached PIN exactly
at its expiry time 600 is rejected. -/
theorem pin_single_use_witness :
    (generate_pin 482913 0 c5_did c5_cert p2pEmpty).1.expires_at = 0 + 600 ∧
    lookupA c5_after.pin_storage (("482913").data) = none ∧
    process_pairing_code (("482913").data) c5_addr 61 c5_after =
      (c5_after, Except.error PairingError.invalidOrExpiredPin) ∧
    process_pairing_code (("482913").data) c5_addr 600 c5_before =
      (c5_before, Except.error PairingError.invalidOrExpiredPin) := by
  have h1 := (pin_single_use_and_expiry.1 482913 0 c5_did c5_cert p2pEmpty).1
  have h2 := pin_single_use_and_expiry.2.1 (("482913").data) c5_addr 60 c5_before c5_after
    c5_did (by decide) (by decide)
  have h3 := pin_single_use_and_expiry.2.2 (("482913").data) c5_addr 600 c5_before
    ⟨generate_pairing_code c5_did c5_cert 0, c5_did, 600⟩ (by decide) (by decide) (by decide)
  exact ⟨h1, h2.1, h2.2 61, h3⟩

/-- C8 counterexample: after generating PIN 111111 at time -500
(expiry 100) and PIN 222222 at time -400 (expiry 200), the cache's
iteration order holds the later-expiring PIN first, and at time 0
`get_current_pin` returns that PIN ("222222", expiry 200) although the
still-valid PIN "111111" expires earlier (at 100) — so the returned
PIN is not the earliest non-expired one. -/
theorem get_current_pin_counterexample :
    get_current_pin c8_state.pin_storage 0 = some ⟨("222222").data, 200, 200⟩ ∧
    ((("111111").data : Str),
        (⟨generate_pairing_code c5_did c5_cert (-500), c5_did, 100⟩ : PinDataM)) ∈
      c8_state.pin_storage ∧
    (0 : Int) < 100 ∧ (100 : Int) < 200 := by
  refine ⟨by decide, by decide, by decide, by decide⟩

/-- C8 (amended): `get_current_pin` returns nothing exactly when every
cached PIN is expired, and whenever it returns a PIN, that PIN is a
cached, non-expired one (the first in the cache's iteration order, not
necessarily the earliest-expiring) reported with its remaining
lifetime `expires_at - now`. -/
theorem get_current_pin_first_valid :
    ∀ (stor : List (Str × PinDataM)) (now : Int),
      (get_current_pin stor now = none ↔ ∀ kv ∈ stor, kv.2.expires_at ≤ now) ∧
      (∀ ap : ActivePinM, get_current_pin stor now = some ap →
        ∃ pd : PinDataM, (ap.pin, pd) ∈ stor ∧ now < pd.expires_at ∧
          ap.expires_at = pd.expires_at ∧ ap.expires_in_seconds = pd.expires_at - now) := by
  intro stor now
  induction stor with
  | nil =>
    refine ⟨⟨fun _ kv hkv => absurd hkv (List.not_mem_nil kv), fun _ => rfl⟩, ?_⟩
    intro ap h
    cases h
  | cons kv t ih =>
    rcases kv with ⟨pin, pd⟩
    by_cases hexp : now < pd.expires_at
    · have hsome : get_current_pin ((pin, pd) :: t) now =
          some ⟨pin, pd.expires_at, pd.expires_at - now⟩ := by
        show (if now < pd.expires_at then
            some (⟨pin, pd.expires_at, pd.expires_at - now⟩ : ActivePinM)
          else get_current_pin t now) = some ⟨pin, pd.expires_at, pd.expires_at - now⟩
        rw [if_pos hexp]
      constructor
      · constructor
        · intro h
          rw [hsome] at h
          cases h
        · intro hall
          have hc : pd.expires_at ≤ now := hall (pin, pd) (List.mem_cons_self _ _)
          exact absurd hexp (not_lt.mpr hc)
      · intro ap h
        rw [hsome] at h
        have hap : ap = ⟨pin, pd.expires_at, pd.expires_at - now⟩ := by
          cases h
          rfl
        rw [hap]
        exact ⟨pd, List.mem_cons_self _ _, hexp, rfl, rfl⟩
    · have hred : get_current_pin ((pin, pd) :: t) now = get_current_pin t now := by
        show (if now < pd.expires_at then
            some (⟨pin, pd.expires_at, pd.expires_at - now⟩ : ActivePinM)
          else get_current_pin t now) = get_current_pin t now
        rw [if_neg hexp]
      constructor
      · rw [hred]
        constructor
        · intro h kv hkv
          rcases List.mem_cons.mp hkv with hh | hm
          · rw [hh]
            exact not_lt.mp hexp
          · exact (ih.1.mp h) kv hm
        · intro hall
          exact ih.1.mpr (fun kv hm => hall kv (List.mem_cons_of_mem _ hm))
      · intro ap h
        rw [hred] at h
        rcases ih.2 ap h with ⟨pd', hm, ha, hb, hc⟩
        exact ⟨pd', List.mem_cons_of_mem _ hm, ha, hb, hc⟩

/-- C8 witness: the amended statement applied to the concrete
two-PIN cache at time 0. -/
theorem get_current_pin_witness :
    ∃ pd : PinDataM,
      ((⟨("222222").data, 200, 200⟩ : ActivePinM).pin, pd) ∈ c8_state.pin_storage ∧
      (0 : Int) < pd.expires_at ∧
      (⟨("222222").data, 200, 200⟩ : ActivePinM).expires_at = pd.expires_at ∧
      (⟨("222222").data, 200, 200⟩ : ActivePinM).expires_in_seconds = pd.expires_at - 0 :=
  (get_current_pin_first_valid c8_state.pin_storage 0).2 ⟨("222222").data, 200, 200⟩
    (by decide)

/-- C9 counterexample: the 6-digit input "000000" is not a valid
base64 encoding of a JSON pairing payload, yet with an empty PIN cache
`process_pairing_code` rejects it with `InvalidOrExpiredPin`, not
`MalformedPayload` (6-digit inputs take the PIN path and never reach
the payload decoder). -/
theorem six_digit_nonbase64_counterexample :
    decode_pairing_payload (("000000").data) = none ∧
    process_pairing_code (("000000").data) (("1.2.3.4:1").data) 0 p2pEmpty =
      (p2pEmpty, Except.error PairingError.invalidOrExpiredPin) ∧
    PairingError.invalidOrExpiredPin ≠ PairingError.malformedPayload := by
  refine ⟨by decide, by decide, by decide⟩

/-- C9 (amended): every pairing input that is not a 6-digit numeric
string and does not decode as a base64 JSON pairing payload is
rejected with `MalformedPayload`, with the whole state — PIN cache,
peer registry and credential store — unchanged. -/
theorem malformed_non_pin_input_no_side_effects :
    ∀ (input addr : Str) (now : Int) (st : P2PStateM),
      is_six_digit_pin input = false →
      decode_pairing_payload input = none →
      process_pairing_code input addr now st =
        (st, Except.error PairingError.malformedPayload) := by
  intro input addr now st h6 hdec
  unfold process_pairing_code
  rw [h6]
  simp only [Bool.false_eq_true, if_false]
  unfold continue_pairing
  simp only [hdec]

/-- C9 witness: the spec's own scenario input. -/
theorem malformed_input_witness :
    process_pairing_code (("not-base64!!").data) (("1.2.3.4:1").data) 0 p2pEmpty =
      (p2pEmpty, Except.error PairingError.malformedPayload) :=
  malformed_non_pin_input_no_side_effects (("not-base64!!").data) (("1.2.3.4:1").data) 0
    p2pEmpty (by decide) (by decide)
